import Mathlib

/-!
# Verification of the device-report mapper of `smartctl_exporter`

This file gives a shallow embedding of `src/metrics.go` (the metric
catalog and the `SMARTctl` device-report mapper) and settles the claims
of the specification against it.

Modelling conventions:

* A parsed JSON document (`gjson.Result` tree) is the inductive `Json`.
  A `gjson.Result` obtained from a path lookup is `Result := Option Json`:
  `none` models a non-existent path (for which `Exists()` is `false`),
  `some j` models a present value (an explicit JSON `null` literal is
  `some .null`, which exists, as in gjson).
* Go `float64` values are modelled as exact rationals (`Rat`).  Every
  concrete value exercised by the claims is a small integer, where
  `float64` arithmetic is exact.
* gjson's numeric parsing of string-typed fields inside `Float()` and the
  raw-JSON rendering of objects/arrays inside `String()` are not needed by
  any claim; those coercion corners degrade to the type's zero value here,
  matching the spec's stated lenience ("type coercion failures degrade to
  the type's zero value").
* The Prometheus channel `ch` is replaced by returning the list of
  constructed metrics, in emission order.  `MustNewConstMetric` panics in
  Go when the label-value count does not match the descriptor; the panic
  is modelled as the `Except.error` branch of `Metric`.
* The Go `for key, path := range map[string]string{...}` loop in
  `mineDeviceAttribute` iterates a map literal, whose iteration order the
  Go runtime randomizes independently for every execution of the loop.
  `Collect` therefore takes the sequence `ords` of iteration orders drawn
  by the runtime, one per attribute-table entry; a run is valid when every
  drawn order is a permutation of the map's entry list (`attrValuePaths`).
-/

/-- A parsed JSON document: the tree the mapper reads. -/
inductive Json where
  | null : Json
  | bool : Bool → Json
  | num : Rat → Json
  | str : String → Json
  | arr : List Json → Json
  | obj : List (String × Json) → Json

/-- One step of dot-splitting a path (`strings.Split(path, ".")`),
written on character lists so that it evaluates inside the kernel. -/
def splitDotAux : List Char → List Char → List String
  | [], acc => [String.mk acc.reverse]
  | c :: cs, acc =>
    if c = '.' then String.mk acc.reverse :: splitDotAux cs []
    else splitDotAux cs (c :: acc)

/-- Split a gjson path on dots (the source uses only plain dot paths). -/
def splitDot (s : String) : List String :=
  splitDotAux s.data []

/-- Go `strings.TrimSpace`, on character lists so that it evaluates
inside the kernel (ASCII whitespace; the claims only exercise ASCII). -/
def trimSpace (s : String) : String :=
  String.mk (((s.data.dropWhile Char.isWhitespace).reverse.dropWhile
    Char.isWhitespace).reverse)

/-- Go `strings.ToLower`, on character lists so that it evaluates inside
the kernel. -/
def toLowerStr (s : String) : String :=
  String.mk (s.data.map Char.toLower)

/-- Go `strings.Join(_, ",")`, written recursively so that it evaluates
inside the kernel. -/
def joinComma : List String → String
  | [] => ""
  | [s] => s
  | s :: rest => s ++ "," ++ joinComma rest

/-- Key lookup on an object node (first match, as gjson does);
anything that is not an object has no keys. -/
def Json.getKey : Json → String → Option Json
  | .obj fields, key => fields.lookup key
  | _, _ => none

/-- Walk a list of path segments. -/
def Json.getPath : Json → List String → Option Json
  | j, [] => some j
  | j, seg :: rest =>
    match j.getKey seg with
    | none => none
    | some child => child.getPath rest

/-- `gjson` `Result.Get` from a document root: dot-separated path lookup
(the source uses only plain dot paths, no wildcards or modifiers). -/
def Json.Get (j : Json) (path : String) : Option Json :=
  j.getPath (splitDot path)

/-- A `gjson.Result`: `none` is a non-existent path. -/
abbrev Result := Option Json

/-- `gjson` `Result.Get` relative to a previous lookup result. -/
def Result.Get (t : Result) (path : String) : Result :=
  t.bind fun j => j.Get path

/-- `gjson` `Result.Exists()`. -/
def Result.Exists (t : Result) : Bool :=
  t.isSome

/-- `gjson` `Result.Float()`: numbers are themselves, `true` is 1,
everything else (missing, null, false, strings, objects, arrays)
degrades to 0. -/
def Result.floatVal : Result → Rat
  | some (.num q) => q
  | some (.bool true) => 1
  | _ => 0

/-- `gjson` `Result.String()`: strings are themselves, booleans render as
`"true"`/`"false"`, numbers render decimally, everything else is `""`. -/
def Result.strVal : Result → String
  | some (.str s) => s
  | some (.num q) => toString q
  | some (.bool true) => "true"
  | some (.bool false) => "false"
  | _ => ""

/-- `gjson` `Result.Bool()`: `true` is true, a number is true when
nonzero, a string is parsed with `strconv.ParseBool` on its lowercasing,
everything else is false. -/
def Result.boolVal : Result → Bool
  | some (.bool b) => b
  | some (.num q) => decide (q ≠ 0)
  | some (.str s) =>
    let l := toLowerStr s
    l == "1" || l == "t" || l == "true"
  | _ => false

/-- `gjson` `Result.Array()`: an array yields its elements, a missing or
null result yields the empty list, any other value yields the one-element
list holding it. -/
def Result.arrVal : Result → List Json
  | some (.arr xs) => xs
  | some .null => []
  | none => []
  | some j => [j]

/-- Prometheus value kinds used by the mapper. -/
inductive ValueType where
  | gauge : ValueType
  | counter : ValueType
deriving DecidableEq

/-- A Prometheus descriptor: metric name, help text and the ordered list
of variable label names (`prometheus.NewDesc`). -/
structure Desc where
  fqName : String
  help : String
  variableLabels : List String
deriving DecidableEq

/-- One emitted observation: descriptor, value kind, numeric value and the
ordered label values supplied at construction. -/
structure Observation where
  desc : Desc
  valueType : ValueType
  value : Rat
  labelValues : List String
deriving DecidableEq

/-- The outcome of one `prometheus.MustNewConstMetric` call: `ok` is a
constructed metric sent on the channel, `error` is the panic branch. -/
abbrev Metric := Except String Observation

/-- `prometheus.MustNewConstMetric`: constructing a constant metric
panics (modelled as `Except.error`) when the number of label values does
not match the descriptor's variable-label list. -/
def MustNewConstMetric (desc : Desc) (vt : ValueType) (value : Rat)
    (labelValues : List String) : Metric :=
  if labelValues.length = desc.variableLabels.length then
    .ok ⟨desc, vt, value, labelValues⟩
  else
    .error "inconsistent label cardinality"

/-! ## The metric catalog (src/metrics.go, first compilation unit) -/

def metricSmartctlVersion : Desc :=
  ⟨"smartctl_version", "smartctl version",
   ["json_format_version", "smartctl_version", "svn_revision", "build_info"]⟩

def metricDeviceModel : Desc :=
  ⟨"smartctl_device", "Device info",
   ["device", "interface", "protocol", "model_family", "model_name",
    "serial_number", "ata_additional_product_id", "firmware_version",
    "ata_version", "sata_version"]⟩

def metricDeviceCapacityBlocks : Desc :=
  ⟨"smartctl_device_capacity_blocks", "Device capacity in blocks",
   ["device", "model_family", "model_name", "serial_number"]⟩

def metricDeviceCapacityBytes : Desc :=
  ⟨"smartctl_device_capacity_bytes", "Device capacity in bytes",
   ["device", "model_family", "model_name", "serial_number"]⟩

def metricDeviceBlockSize : Desc :=
  ⟨"smartctl_device_block_size", "Device block size",
   ["device", "model_family", "model_name", "serial_number", "blocks_type"]⟩

def metricDeviceInterfaceSpeed : Desc :=
  ⟨"smartctl_device_interface_speed", "Device interface speed, bits per second",
   ["device", "model_family", "model_name", "serial_number", "speed_type"]⟩

def metricDeviceAttribute : Desc :=
  ⟨"smartctl_device_attribute", "Device attributes",
   ["device", "model_family", "model_name", "serial_number",
    "attribute_name", "attribute_flags_short", "attribute_flags_long",
    "attribute_value_type", "attribute_id"]⟩

def metricDevicePowerOnSeconds : Desc :=
  ⟨"smartctl_device_power_on_seconds", "Device power on seconds",
   ["device", "model_family", "model_name", "serial_number"]⟩

def metricDeviceRotationRate : Desc :=
  ⟨"smartctl_device_rotation_rate", "Device rotation rate",
   ["device", "model_family", "model_name", "serial_number"]⟩

def metricDeviceTemperature : Desc :=
  ⟨"smartctl_device_temperature", "Device temperature celsius",
   ["device", "model_family", "model_name", "serial_number", "temperature_type"]⟩

def metricDevicePowerCycleCount : Desc :=
  ⟨"smartctl_device_power_cycle_count", "Device power cycle count",
   ["device", "model_family", "model_name", "serial_number"]⟩

def metricDeviceExitStatus : Desc :=
  ⟨"smartctl_device_smartctl_exit_status", "Exit status of smartctl on device",
   ["device", "model_family", "model_name", "serial_number"]⟩

def metricDeviceStatistics : Desc :=
  ⟨"smartctl_device_statistics", "Device statistics",
   ["device", "model_family", "model_name", "serial_number",
    "statistic_table", "statistic_name", "statistic_flags_short",
    "statistic_flags_long"]⟩

def metricCriticalWarning : Desc :=
  ⟨"smartctl_device_critical_warning", "Critical warning counter",
   ["device", "model_family", "model_name", "serial_number"]⟩

def metricAvailableSpare : Desc :=
  ⟨"smartctl_device_available_spare", "Available spare",
   ["device", "model_family", "model_name", "serial_number"]⟩

def metricMediaErrors : Desc :=
  ⟨"smartctl_device_media_errors", "Media errors counter",
   ["device", "model_family", "model_name", "serial_number"]⟩

def metricPercentageUsed : Desc :=
  ⟨"smartctl_device_percentage_used", "Percentage Used",
   ["device", "model_family", "model_name", "serial_number"]⟩

def metricSmartStatus : Desc :=
  ⟨"smartctl_device_smart_status", "Smart status",
   ["device", "model_family", "model_name", "serial_number"]⟩

/-! ## The device-report mapper (src/metrics.go, second compilation unit) -/

/-- `SMARTDevice` — short info about device (the four identity strings). -/
structure SMARTDevice where
  device : String
  serial : String
  family : String
  model : String
deriving DecidableEq

/-- The `SMARTctl` mapper object.  The Prometheus channel field `ch` is
replaced by letting every `mine*` step return the list of metrics it
sends, in emission order. -/
structure SMARTctl where
  json : Json
  device : SMARTDevice

/-- `NewSMARTctl`: the constructor derives the four identity strings once,
as the whitespace-trimmed string values of `device.name`, `serial_number`,
`model_family` and `model_name`. -/
def NewSMARTctl (json : Json) : SMARTctl :=
  ⟨json,
   ⟨trimSpace (Result.strVal (Json.Get json "device.name")),
    trimSpace (Result.strVal (Json.Get json "serial_number")),
    trimSpace (Result.strVal (Json.Get json "model_family")),
    trimSpace (Result.strVal (Json.Get json "model_name"))⟩⟩

/-- Modelled from the spec: the repository's `GetFloatIfExists` helper
lives in a source file that is not under `src/` (only its call sites
are).  Per the spec's path-based optional lookup ("`asFloat(default)`",
"each part independently defaulting to 0 if absent"), it returns the
float coercion of the value at `path` when the path exists and the
default otherwise. -/
def GetFloatIfExists (json : Result) (path : String) (dflt : Rat) : Rat :=
  let value := Result.Get json path
  if Result.Exists value then Result.floatVal value else dflt

/-- Modelled from the spec: the repository's `GetStringIfExists` helper
lives in a source file that is not under `src/` (only its call site is).
Per the spec's path-based optional lookup ("`asString(default)`", "an
optional additional-product-id field, default `\"unknown\"` if absent"),
it returns the string coercion of the value at `path` when the path
exists and the default otherwise. -/
def GetStringIfExists (json : Result) (path : String) (dflt : String) : String :=
  let value := Result.Get json path
  if Result.Exists value then Result.strVal value else dflt

/-- `mineLongFlags`: collect, in candidate order, every flag name that
exists and is truthy under the given sub-tree, and join with commas. -/
def mineLongFlags (json : Result) (flags : List String) : String :=
  joinComma
    (flags.foldl
      (fun result flag =>
        let jFlag := Result.Get json flag
        if Result.Exists jFlag && Result.boolVal jFlag then
          result ++ [flag]
        else
          result)
      [])

def SMARTctl.mineExitStatus (smart : SMARTctl) : List Metric :=
  [MustNewConstMetric metricDeviceExitStatus .gauge
    (Result.floatVal (Json.Get smart.json "smartctl.exit_status"))
    [smart.device.device, smart.device.family, smart.device.model,
     smart.device.serial]]

def SMARTctl.mineDevice (smart : SMARTctl) : List Metric :=
  let device := Json.Get smart.json "device"
  [MustNewConstMetric metricDeviceModel .gauge 1
    [smart.device.device,
     Result.strVal (Result.Get device "type"),
     Result.strVal (Result.Get device "protocol"),
     smart.device.family,
     smart.device.model,
     smart.device.serial,
     GetStringIfExists (some smart.json) "ata_additional_product_id" "unknown",
     Result.strVal (Json.Get smart.json "firmware_version"),
     Result.strVal (Json.Get smart.json "ata_version.string"),
     Result.strVal (Json.Get smart.json "sata_version.string")]]

def SMARTctl.mineCapacity (smart : SMARTctl) : List Metric :=
  let capacity := Json.Get smart.json "user_capacity"
  [MustNewConstMetric metricDeviceCapacityBlocks .gauge
    (Result.floatVal (Result.Get capacity "blocks"))
    [smart.device.device, smart.device.family, smart.device.model,
     smart.device.serial],
   MustNewConstMetric metricDeviceCapacityBytes .gauge
    (Result.floatVal (Result.Get capacity "bytes"))
    [smart.device.device, smart.device.family, smart.device.model,
     smart.device.serial]] ++
  (["logical", "physical"].map fun blockType =>
    MustNewConstMetric metricDeviceBlockSize .gauge
      (Result.floatVal (Json.Get smart.json (blockType ++ "_block_size")))
      [smart.device.device, smart.device.family, smart.device.model,
       smart.device.serial, blockType])

def SMARTctl.mineInterfaceSpeed (smart : SMARTctl) : List Metric :=
  let iSpeed := Json.Get smart.json "interface_speed"
  ["max", "current"].map fun speedType =>
    let tSpeed := Result.Get iSpeed speedType
    MustNewConstMetric metricDeviceInterfaceSpeed .gauge
      (Result.floatVal (Result.Get tSpeed "units_per_second") *
        Result.floatVal (Result.Get tSpeed "bits_per_unit"))
      [smart.device.device, smart.device.family, smart.device.model,
       smart.device.serial, speedType]

/-- The entry list of the Go map literal
`map[string]string{"value": "value", "worst": "worst", "thresh": "thresh",
"raw": "raw.value"}` iterated for every attribute-table entry. -/
def attrValuePaths : List (String × String) :=
  [("value", "value"), ("worst", "worst"), ("thresh", "thresh"),
   ("raw", "raw.value")]

/-- `mineDeviceAttribute`.  The inner loop ranges over a Go map literal;
the runtime draws an iteration order independently for each execution, so
the order used for the `i`-th attribute entry is `ords.getD i
attrValuePaths` (a run of the Go program corresponds to a choice of
`ords` whose members are permutations of `attrValuePaths`). -/
def SMARTctl.mineDeviceAttribute (smart : SMARTctl)
    (ords : List (List (String × String))) : List Metric :=
  ((Result.arrVal (Json.Get smart.json "ata_smart_attributes.table")).enum).flatMap
    fun ia =>
      let attrib := ia.2
      let name := trimSpace (Result.strVal (Json.Get attrib "name"))
      let flagsShort := trimSpace (Result.strVal (Json.Get attrib "flags.string"))
      let flagsLong := mineLongFlags (Json.Get attrib "flags")
        ["prefailure", "updated_online", "performance", "error_rate",
         "event_count", "auto_keep"]
      let id := Result.strVal (Json.Get attrib "id")
      (ords.getD ia.1 attrValuePaths).map fun kv =>
        MustNewConstMetric metricDeviceAttribute .gauge
          (Result.floatVal (Json.Get attrib kv.2))
          [smart.device.device, smart.device.family, smart.device.model,
           smart.device.serial, name, flagsShort, flagsLong, kv.1, id]

def SMARTctl.minePowerOnSeconds (smart : SMARTctl) : List Metric :=
  let pot := Json.Get smart.json "power_on_time"
  [MustNewConstMetric metricDevicePowerOnSeconds .counter
    (GetFloatIfExists pot "hours" 0 * 60 * 60 +
      GetFloatIfExists pot "minutes" 0 * 60)
    [smart.device.device, smart.device.family, smart.device.model,
     smart.device.serial]]

def SMARTctl.mineRotationRate (smart : SMARTctl) : List Metric :=
  let rRate := GetFloatIfExists (some smart.json) "rotation_rate" 0
  if rRate > 0 then
    [MustNewConstMetric metricDeviceRotationRate .gauge rRate
      [smart.device.device, smart.device.family, smart.device.model,
       smart.device.serial]]
  else
    []

/-- `mineTemperatures`: guarded by `temperatures.Exists()`, then
`ForEach`.  gjson's `ForEach` passes key and value for each field of an
object, only the values (with an empty key) for an array, and the value
itself once (with an empty key) for any other existing value. -/
def SMARTctl.mineTemperatures (smart : SMARTctl) : List Metric :=
  match Json.Get smart.json "temperature" with
  | none => []
  | some (.obj fields) =>
    fields.map fun kv =>
      MustNewConstMetric metricDeviceTemperature .gauge
        (Result.floatVal (some kv.2))
        [smart.device.device, smart.device.family, smart.device.model,
         smart.device.serial, kv.1]
  | some (.arr xs) =>
    xs.map fun v =>
      MustNewConstMetric metricDeviceTemperature .gauge
        (Result.floatVal (some v))
        [smart.device.device, smart.device.family, smart.device.model,
         smart.device.serial, ""]
  | some j =>
    [MustNewConstMetric metricDeviceTemperature .gauge
      (Result.floatVal (some j))
      [smart.device.device, smart.device.family, smart.device.model,
       smart.device.serial, ""]]

def SMARTctl.minePowerCycleCount (smart : SMARTctl) : List Metric :=
  [MustNewConstMetric metricDevicePowerCycleCount .counter
    (Result.floatVal (Json.Get smart.json "power_cycle_count"))
    [smart.device.device, smart.device.family, smart.device.model,
     smart.device.serial]]

def SMARTctl.mineDeviceStatistics (smart : SMARTctl) : List Metric :=
  (Result.arrVal (Json.Get smart.json "ata_device_statistics.pages")).flatMap
    fun page =>
      let table := trimSpace (Result.strVal (Json.Get page "name"))
      (Result.arrVal (Json.Get page "table")).map fun statistic =>
        MustNewConstMetric metricDeviceStatistics .gauge
          (Result.floatVal (Json.Get statistic "value"))
          [smart.device.device, smart.device.family, smart.device.model,
           smart.device.serial, table,
           trimSpace (Result.strVal (Json.Get statistic "name")),
           trimSpace (Result.strVal (Json.Get statistic "flags.string")),
           mineLongFlags (Json.Get statistic "flags")
             ["valid", "normalized", "supports_dsn",
              "monitored_condition_met"]]

/-- `mineNvmeSmartHealthInformationLog`.  The source guards with
`if (iHealth == nil) { return }`, but `smart.json.Get` returns a
`gjson.Result` struct value, which is never `nil` (the comparison with
`nil` does not even type-check for that struct type; the upstream project
guards with `iHealth.Exists()` instead).  The guard can therefore never
fire, and the four NVMe observations are emitted unconditionally; the
embedding reflects that by omitting the dead early return. -/
def SMARTctl.mineNvmeSmartHealthInformationLog (smart : SMARTctl) : List Metric :=
  let iHealth := Json.Get smart.json "nvme_smart_health_information_log"
  [MustNewConstMetric metricCriticalWarning .gauge
    (Result.floatVal (Result.Get iHealth "critical_warning"))
    [smart.device.device, smart.device.family, smart.device.model,
     smart.device.serial],
   MustNewConstMetric metricAvailableSpare .gauge
    (Result.floatVal (Result.Get iHealth "available_spare"))
    [smart.device.device, smart.device.family, smart.device.model,
     smart.device.serial],
   MustNewConstMetric metricMediaErrors .gauge
    (Result.floatVal (Result.Get iHealth "media_errors"))
    [smart.device.device, smart.device.family, smart.device.model,
     smart.device.serial],
   MustNewConstMetric metricPercentageUsed .gauge
    (Result.floatVal (Result.Get iHealth "percentage_used"))
    [smart.device.device, smart.device.family, smart.device.model,
     smart.device.serial]]

def SMARTctl.mineSmartStatus (smart : SMARTctl) : List Metric :=
  let iStatus := Json.Get smart.json "smart_status"
  [MustNewConstMetric metricSmartStatus .gauge
    (Result.floatVal (Result.Get iStatus "passed"))
    [smart.device.device, smart.device.family, smart.device.model,
     smart.device.serial]]

/-- `Collect`: one mapping pass, the twelve sub-steps in the source's
fixed order.  `ords` is the sequence of map-iteration orders drawn by the
Go runtime for the attribute-table loop (see `mineDeviceAttribute`). -/
def SMARTctl.Collect (smart : SMARTctl)
    (ords : List (List (String × String))) : List Metric :=
  smart.mineExitStatus ++
  smart.mineDevice ++
  smart.mineCapacity ++
  smart.mineInterfaceSpeed ++
  smart.mineDeviceAttribute ords ++
  smart.minePowerOnSeconds ++
  smart.mineRotationRate ++
  smart.mineTemperatures ++
  smart.minePowerCycleCount ++
  smart.mineDeviceStatistics ++
  smart.mineNvmeSmartHealthInformationLog ++
  smart.mineSmartStatus

/-- A run of the Go program draws, for each execution of the attribute
map loop, some permutation of the map's entries. -/
def ValidOrds (ords : List (List (String × String))) : Prop :=
  ∀ o ∈ ords, o.Perm attrValuePaths

/-! ## Derived notions used by the claims -/

instance : DecidableEq Metric := fun a b =>
  match a, b with
  | .error x, .error y => decidable_of_iff (x = y) (by simp)
  | .error _, .ok _ => isFalse (by simp)
  | .ok _, .error _ => isFalse (by simp)
  | .ok x, .ok y => decidable_of_iff (x = y) (by simp)

/-- The descriptor a constructed metric was built against (`none` for the
panic branch). -/
def descOf : Metric → Option Desc
  | .ok obs => some obs.desc
  | .error _ => none

/-- The observations of a metric stream that were built against a given
descriptor, in stream order. -/
def obsOf (d : Desc) (l : List Metric) : List Observation :=
  l.filterMap fun m =>
    match m with
    | .ok obs => if obs.desc = d then some obs else none
    | .error _ => none

/-- How many observations of a stream carry a given descriptor. -/
def countD (d : Desc) (l : List Metric) : Nat :=
  (obsOf d l).length

/-- The four identity label names shared by (almost) all descriptors. -/
def identityNames : List String :=
  ["device", "model_family", "model_name", "serial_number"]

/-- The label values an observation carries at the positions where its
descriptor declares the four identity label names, in declaration
order. -/
def identityValues (obs : Observation) : List String :=
  (obs.desc.variableLabels.zip obs.labelValues).filterMap fun nv =>
    if nv.1 ∈ identityNames then some nv.2 else none

/-- Number of entries of the attribute table (§4.3 step 5) a report
offers to the mapper. -/
def attrEntryCount (r : Json) : Nat :=
  (Result.arrVal (Json.Get r "ata_smart_attributes.table")).length

/-- Number of iterations gjson's `ForEach` performs on the temperature
sub-tree (§4.3 step 8): one per field of an object, one per element of an
array, one for any other present value, none when absent. -/
def tempEntryCount (r : Json) : Nat :=
  match Json.Get r "temperature" with
  | none => 0
  | some (.obj fields) => fields.length
  | some (.arr xs) => xs.length
  | some _ => 1

/-- Number of device-statistics table entries (§4.3 step 10), summed over
all pages. -/
def statsEntryCount (r : Json) : Nat :=
  ((Result.arrVal (Json.Get r "ata_device_statistics.pages")).map fun page =>
    (Result.arrVal (Json.Get page "table")).length).sum

/-! ## Per-sub-step characterization lemmas -/

/-- What every metric emitted by a sub-step satisfies: built without
panicking, against one of the sub-step's descriptors, with as many label
values as the descriptor declares label names, and carrying the mapper's
four identity strings at the positions where the descriptor declares the
identity label names. -/
def MineSpec (smart : SMARTctl) (ds : List Desc) (m : Metric) : Prop :=
  ∃ obs, m = .ok obs ∧ obs.desc ∈ ds ∧
    obs.labelValues.length = obs.desc.variableLabels.length ∧
    identityValues obs =
      [smart.device.device, smart.device.family, smart.device.model,
       smart.device.serial]

theorem MineSpec.mono {smart : SMARTctl} {ds ds' : List Desc} {m : Metric}
    (hsub : ∀ d ∈ ds, d ∈ ds') (h : MineSpec smart ds m) :
    MineSpec smart ds' m := by
  obtain ⟨obs, h1, h2, h3, h4⟩ := h
  exact ⟨obs, h1, hsub _ h2, h3, h4⟩

theorem mineExitStatus_spec {smart : SMARTctl} {m : Metric}
    (h : m ∈ smart.mineExitStatus) :
    MineSpec smart [metricDeviceExitStatus] m := by
  simp only [SMARTctl.mineExitStatus, List.mem_singleton] at h
  subst h
  exact ⟨_, rfl, List.mem_singleton.mpr rfl, rfl, rfl⟩

theorem mineDevice_spec {smart : SMARTctl} {m : Metric}
    (h : m ∈ smart.mineDevice) :
    MineSpec smart [metricDeviceModel] m := by
  simp only [SMARTctl.mineDevice, List.mem_singleton] at h
  subst h
  exact ⟨_, rfl, List.mem_singleton.mpr rfl, rfl, rfl⟩

theorem mineCapacity_spec {smart : SMARTctl} {m : Metric}
    (h : m ∈ smart.mineCapacity) :
    MineSpec smart
      [metricDeviceCapacityBlocks, metricDeviceCapacityBytes,
       metricDeviceBlockSize] m := by
  simp only [SMARTctl.mineCapacity, List.map_cons, List.map_nil,
    List.mem_append, List.mem_cons, List.mem_singleton,
    List.not_mem_nil, or_false] at h
  rcases h with (rfl | rfl) | (rfl | rfl)
  · exact ⟨_, rfl, by simp, rfl, rfl⟩
  · exact ⟨_, rfl, by simp, rfl, rfl⟩
  · exact ⟨_, rfl, by simp, rfl, rfl⟩
  · exact ⟨_, rfl, by simp, rfl, rfl⟩

theorem mineInterfaceSpeed_spec {smart : SMARTctl} {m : Metric}
    (h : m ∈ smart.mineInterfaceSpeed) :
    MineSpec smart [metricDeviceInterfaceSpeed] m := by
  simp only [SMARTctl.mineInterfaceSpeed, List.map_cons, List.map_nil,
    List.mem_cons, List.mem_singleton, List.not_mem_nil, or_false] at h
  rcases h with rfl | rfl
  · exact ⟨_, rfl, List.mem_singleton.mpr rfl, rfl, rfl⟩
  · exact ⟨_, rfl, List.mem_singleton.mpr rfl, rfl, rfl⟩

theorem mineDeviceAttribute_spec {smart : SMARTctl}
    {ords : List (List (String × String))} {m : Metric}
    (h : m ∈ smart.mineDeviceAttribute ords) :
    MineSpec smart [metricDeviceAttribute] m := by
  simp only [SMARTctl.mineDeviceAttribute, List.mem_flatMap,
    List.mem_map] at h
  obtain ⟨ia, -, kv, -, rfl⟩ := h
  exact ⟨_, rfl, List.mem_singleton.mpr rfl, rfl, rfl⟩

theorem minePowerOnSeconds_spec {smart : SMARTctl} {m : Metric}
    (h : m ∈ smart.minePowerOnSeconds) :
    MineSpec smart [metricDevicePowerOnSeconds] m := by
  simp only [SMARTctl.minePowerOnSeconds, List.mem_singleton] at h
  subst h
  exact ⟨_, rfl, List.mem_singleton.mpr rfl, rfl, rfl⟩

theorem mineRotationRate_spec {smart : SMARTctl} {m : Metric}
    (h : m ∈ smart.mineRotationRate) :
    MineSpec smart [metricDeviceRotationRate] m := by
  simp only [SMARTctl.mineRotationRate] at h
  split at h
  · simp only [List.mem_singleton] at h
    subst h
    exact ⟨_, rfl, List.mem_singleton.mpr rfl, rfl, rfl⟩
  · exact absurd h (List.not_mem_nil m)

theorem mineTemperatures_spec {smart : SMARTctl} {m : Metric}
    (h : m ∈ smart.mineTemperatures) :
    MineSpec smart [metricDeviceTemperature] m := by
  unfold SMARTctl.mineTemperatures at h
  cases hj : Json.Get smart.json "temperature" with
  | none =>
    rw [hj] at h
    exact absurd h (List.not_mem_nil m)
  | some j =>
    cases j with
    | obj fields =>
      rw [hj] at h
      simp only [List.mem_map] at h
      obtain ⟨kv, -, rfl⟩ := h
      exact ⟨_, rfl, List.mem_singleton.mpr rfl, rfl, rfl⟩
    | arr xs =>
      rw [hj] at h
      simp only [List.mem_map] at h
      obtain ⟨v, -, rfl⟩ := h
      exact ⟨_, rfl, List.mem_singleton.mpr rfl, rfl, rfl⟩
    | null =>
      rw [hj] at h
      simp only [List.mem_singleton] at h
      subst h
      exact ⟨_, rfl, List.mem_singleton.mpr rfl, rfl, rfl⟩
    | bool b =>
      rw [hj] at h
      simp only [List.mem_singleton] at h
      subst h
      exact ⟨_, rfl, List.mem_singleton.mpr rfl, rfl, rfl⟩
    | num q =>
      rw [hj] at h
      simp only [List.mem_singleton] at h
      subst h
      exact ⟨_, rfl, List.mem_singleton.mpr rfl, rfl, rfl⟩
    | str s =>
      rw [hj] at h
      simp only [List.mem_singleton] at h
      subst h
      exact ⟨_, rfl, List.mem_singleton.mpr rfl, rfl, rfl⟩

theorem minePowerCycleCount_spec {smart : SMARTctl} {m : Metric}
    (h : m ∈ smart.minePowerCycleCount) :
    MineSpec smart [metricDevicePowerCycleCount] m := by
  simp only [SMARTctl.minePowerCycleCount, List.mem_singleton] at h
  subst h
  exact ⟨_, rfl, List.mem_singleton.mpr rfl, rfl, rfl⟩

theorem mineDeviceStatistics_spec {smart : SMARTctl} {m : Metric}
    (h : m ∈ smart.mineDeviceStatistics) :
    MineSpec smart [metricDeviceStatistics] m := by
  simp only [SMARTctl.mineDeviceStatistics, List.mem_flatMap,
    List.mem_map] at h
  obtain ⟨page, -, statistic, -, rfl⟩ := h
  exact ⟨_, rfl, List.mem_singleton.mpr rfl, rfl, rfl⟩

theorem mineNvmeSmartHealthInformationLog_spec {smart : SMARTctl} {m : Metric}
    (h : m ∈ smart.mineNvmeSmartHealthInformationLog) :
    MineSpec smart
      [metricCriticalWarning, metricAvailableSpare, metricMediaErrors,
       metricPercentageUsed] m := by
  simp only [SMARTctl.mineNvmeSmartHealthInformationLog, List.mem_cons,
    List.mem_singleton, List.not_mem_nil, or_false] at h
  rcases h with rfl | rfl | rfl | rfl
  · exact ⟨_, rfl, by simp, rfl, rfl⟩
  · exact ⟨_, rfl, by simp, rfl, rfl⟩
  · exact ⟨_, rfl, by simp, rfl, rfl⟩
  · exact ⟨_, rfl, by simp, rfl, rfl⟩

theorem mineSmartStatus_spec {smart : SMARTctl} {m : Metric}
    (h : m ∈ smart.mineSmartStatus) :
    MineSpec smart [metricSmartStatus] m := by
  simp only [SMARTctl.mineSmartStatus, List.mem_singleton] at h
  subst h
  exact ⟨_, rfl, List.mem_singleton.mpr rfl, rfl, rfl⟩

/-- Every descriptor some sub-step can construct against (the whole
catalog except `metricSmartctlVersion`). -/
def emittedDescs : List Desc :=
  [metricDeviceExitStatus, metricDeviceModel, metricDeviceCapacityBlocks,
   metricDeviceCapacityBytes, metricDeviceBlockSize,
   metricDeviceInterfaceSpeed, metricDeviceAttribute,
   metricDevicePowerOnSeconds, metricDeviceRotationRate,
   metricDeviceTemperature, metricDevicePowerCycleCount,
   metricDeviceStatistics, metricCriticalWarning, metricAvailableSpare,
   metricMediaErrors, metricPercentageUsed, metricSmartStatus]

theorem Collect_spec {smart : SMARTctl}
    {ords : List (List (String × String))} {m : Metric}
    (h : m ∈ smart.Collect ords) : MineSpec smart emittedDescs m := by
  simp only [SMARTctl.Collect, List.mem_append] at h
  rcases h with ((((((((((h | h) | h) | h) | h) | h) | h) | h) | h) | h) | h) | h
  · exact (mineExitStatus_spec h).mono (by decide)
  · exact (mineDevice_spec h).mono (by decide)
  · exact (mineCapacity_spec h).mono (by decide)
  · exact (mineInterfaceSpeed_spec h).mono (by decide)
  · exact (mineDeviceAttribute_spec h).mono (by decide)
  · exact (minePowerOnSeconds_spec h).mono (by decide)
  · exact (mineRotationRate_spec h).mono (by decide)
  · exact (mineTemperatures_spec h).mono (by decide)
  · exact (minePowerCycleCount_spec h).mono (by decide)
  · exact (mineDeviceStatistics_spec h).mono (by decide)
  · exact (mineNvmeSmartHealthInformationLog_spec h).mono (by decide)
  · exact (mineSmartStatus_spec h).mono (by decide)

/-! ## Locating a descriptor's observations inside a pass -/

theorem obsOf_append (d : Desc) (l₁ l₂ : List Metric) :
    obsOf d (l₁ ++ l₂) = obsOf d l₁ ++ obsOf d l₂ :=
  List.filterMap_append l₁ l₂ _

theorem obsOf_eq_nil {d : Desc} {l : List Metric}
    (h : ∀ m ∈ l, descOf m ≠ some d) : obsOf d l = [] := by
  rw [obsOf, List.filterMap_eq_nil_iff]
  intro m hm
  match m with
  | .error e => rfl
  | .ok obs =>
    have hne : obs.desc ≠ d := by
      intro he
      exact h _ hm (by simp [descOf, he])
    simp [hne]

theorem descOf_ne_of_spec {smart : SMARTctl} {ds : List Desc} {m : Metric}
    {d : Desc} (hspec : MineSpec smart ds m) (hd : d ∉ ds) :
    descOf m ≠ some d := by
  obtain ⟨obs, rfl, hmem, -, -⟩ := hspec
  simp only [descOf]
  intro he
  injection he with he'
  exact hd (he' ▸ hmem)

theorem obsOf_mineDeviceAttribute_ne {smart : SMARTctl}
    {ords : List (List (String × String))} {d : Desc}
    (hd : d ≠ metricDeviceAttribute) :
    obsOf d (smart.mineDeviceAttribute ords) = [] :=
  obsOf_eq_nil fun _ hm =>
    descOf_ne_of_spec (mineDeviceAttribute_spec hm) (by simp [hd])

theorem obsOf_mineRotationRate_ne {smart : SMARTctl} {d : Desc}
    (hd : d ≠ metricDeviceRotationRate) :
    obsOf d smart.mineRotationRate = [] :=
  obsOf_eq_nil fun _ hm =>
    descOf_ne_of_spec (mineRotationRate_spec hm) (by simp [hd])

theorem obsOf_mineTemperatures_ne {smart : SMARTctl} {d : Desc}
    (hd : d ≠ metricDeviceTemperature) :
    obsOf d smart.mineTemperatures = [] :=
  obsOf_eq_nil fun _ hm =>
    descOf_ne_of_spec (mineTemperatures_spec hm) (by simp [hd])

theorem obsOf_mineDeviceStatistics_ne {smart : SMARTctl} {d : Desc}
    (hd : d ≠ metricDeviceStatistics) :
    obsOf d smart.mineDeviceStatistics = [] :=
  obsOf_eq_nil fun _ hm =>
    descOf_ne_of_spec (mineDeviceStatistics_spec hm) (by simp [hd])

theorem obsOf_collect (d : Desc) (smart : SMARTctl)
    (ords : List (List (String × String))) :
    obsOf d (smart.Collect ords) =
      obsOf d smart.mineExitStatus ++ obsOf d smart.mineDevice ++
      obsOf d smart.mineCapacity ++ obsOf d smart.mineInterfaceSpeed ++
      obsOf d (smart.mineDeviceAttribute ords) ++
      obsOf d smart.minePowerOnSeconds ++ obsOf d smart.mineRotationRate ++
      obsOf d smart.mineTemperatures ++ obsOf d smart.minePowerCycleCount ++
      obsOf d smart.mineDeviceStatistics ++
      obsOf d smart.mineNvmeSmartHealthInformationLog ++
      obsOf d smart.mineSmartStatus := by
  simp only [SMARTctl.Collect, obsOf_append]

/-! ## Counting a pass's observations per descriptor -/

theorem countD_append (d : Desc) (l₁ l₂ : List Metric) :
    countD d (l₁ ++ l₂) = countD d l₁ + countD d l₂ := by
  rw [countD, obsOf_append, List.length_append, countD, countD]

theorem countD_collect (d : Desc) (smart : SMARTctl)
    (ords : List (List (String × String))) :
    countD d (smart.Collect ords) =
      countD d smart.mineExitStatus + countD d smart.mineDevice +
      countD d smart.mineCapacity + countD d smart.mineInterfaceSpeed +
      countD d (smart.mineDeviceAttribute ords) +
      countD d smart.minePowerOnSeconds + countD d smart.mineRotationRate +
      countD d smart.mineTemperatures + countD d smart.minePowerCycleCount +
      countD d smart.mineDeviceStatistics +
      countD d smart.mineNvmeSmartHealthInformationLog +
      countD d smart.mineSmartStatus := by
  simp only [SMARTctl.Collect, countD_append]

theorem countD_mineDeviceAttribute_ne {smart : SMARTctl}
    {ords : List (List (String × String))} {d : Desc}
    (hd : d ≠ metricDeviceAttribute) :
    countD d (smart.mineDeviceAttribute ords) = 0 := by
  rw [countD, obsOf_mineDeviceAttribute_ne hd]
  rfl

theorem countD_mineRotationRate_ne {smart : SMARTctl} {d : Desc}
    (hd : d ≠ metricDeviceRotationRate) :
    countD d smart.mineRotationRate = 0 := by
  rw [countD, obsOf_mineRotationRate_ne hd]
  rfl

theorem countD_mineTemperatures_ne {smart : SMARTctl} {d : Desc}
    (hd : d ≠ metricDeviceTemperature) :
    countD d smart.mineTemperatures = 0 := by
  rw [countD, obsOf_mineTemperatures_ne hd]
  rfl

theorem countD_mineDeviceStatistics_ne {smart : SMARTctl} {d : Desc}
    (hd : d ≠ metricDeviceStatistics) :
    countD d smart.mineDeviceStatistics = 0 := by
  rw [countD, obsOf_mineDeviceStatistics_ne hd]
  rfl

/-- Auxiliary: a map whose image under a metric stream consists of
observations against `d` contributes its full length to `obsOf d`. -/
theorem length_obsOf_map {α : Type} {d : Desc} (g : α → Metric) (l : List α)
    (h : ∀ a ∈ l, ∃ obs, g a = .ok obs ∧ obs.desc = d) :
    (obsOf d (l.map g)).length = l.length := by
  induction l with
  | nil => rfl
  | cons a t ih =>
    obtain ⟨obs, hg, hdd⟩ := h a (List.mem_cons_self a t)
    rw [List.map_cons, hg]
    simp only [obsOf, List.filterMap_cons, hdd, if_true, List.length_cons]
    exact congrArg (· + 1) (ih fun a ha => h a (List.mem_cons_of_mem _ ha))

theorem sum_map_const {α : Type} (l : List α) (c : Nat) :
    (l.map fun _ => c).sum = c * l.length := by
  induction l with
  | nil => simp
  | cons a t ih =>
    rw [List.map_cons, List.sum_cons, ih, List.length_cons]
    ring

theorem length_flatMap_eq_sum_of {α β : Type} (l : List α) (f : α → List β)
    (g : α → Nat) (h : ∀ a ∈ l, (f a).length = g a) :
    (l.flatMap f).length = (l.map g).sum := by
  induction l with
  | nil => rfl
  | cons a t ih =>
    rw [List.flatMap_cons, List.length_append, List.map_cons, List.sum_cons,
      h a (List.mem_cons_self a t),
      ih fun a ha => h a (List.mem_cons_of_mem _ ha)]

/-- Every map-iteration order a valid run uses is a permutation of the
map's entry list (drawn orders for indices past the table's length
default to the entry list itself). -/
theorem validOrds_getD {ords : List (List (String × String))}
    (h : ValidOrds ords) (i : Nat) :
    (ords.getD i attrValuePaths).Perm attrValuePaths := by
  rw [List.getD_eq_getElem?_getD]
  cases ho : ords[i]? with
  | none => rw [Option.getD_none]
  | some o =>
    rw [Option.getD_some]
    exact h o (List.getElem?_mem ho)

theorem countD_mineDeviceAttribute {smart : SMARTctl}
    {ords : List (List (String × String))} (h : ValidOrds ords) :
    countD metricDeviceAttribute (smart.mineDeviceAttribute ords) =
      4 * attrEntryCount smart.json := by
  rw [countD, obsOf, SMARTctl.mineDeviceAttribute, List.filterMap_flatMap]
  rw [length_flatMap_eq_sum_of _ _ (fun _ => 4) ?_, sum_map_const,
    List.enum_length, attrEntryCount]
  intro ia _
  show (obsOf metricDeviceAttribute
    ((ords.getD ia.1 attrValuePaths).map _)).length = 4
  refine Eq.trans (length_obsOf_map _ _ ?_) ?_
  · exact fun kv _ => ⟨_, rfl, rfl⟩
  · exact (validOrds_getD h ia.1).length_eq

theorem countD_mineTemperatures (smart : SMARTctl) :
    countD metricDeviceTemperature smart.mineTemperatures =
      tempEntryCount smart.json := by
  rw [countD]
  unfold SMARTctl.mineTemperatures tempEntryCount
  cases Json.Get smart.json "temperature" with
  | none => rfl
  | some j =>
    cases j with
    | obj fields => exact length_obsOf_map _ _ fun kv _ => ⟨_, rfl, rfl⟩
    | arr xs => exact length_obsOf_map _ _ fun v _ => ⟨_, rfl, rfl⟩
    | null => rfl
    | bool b => rfl
    | num q => rfl
    | str s => rfl

theorem countD_mineDeviceStatistics (smart : SMARTctl) :
    countD metricDeviceStatistics smart.mineDeviceStatistics =
      statsEntryCount smart.json := by
  rw [countD, obsOf, SMARTctl.mineDeviceStatistics, List.filterMap_flatMap,
    statsEntryCount]
  refine length_flatMap_eq_sum_of _ _ _ fun page _ => ?_
  show (obsOf metricDeviceStatistics
    ((Result.arrVal (Json.Get page "table")).map _)).length = _
  exact length_obsOf_map _ _ fun st _ => ⟨_, rfl, rfl⟩

/-! ## Order-sensitivity of the attribute map loop -/

theorem mineDeviceAttribute_perm {smart : SMARTctl}
    {ords₁ ords₂ : List (List (String × String))}
    (h₁ : ValidOrds ords₁) (h₂ : ValidOrds ords₂) :
    (smart.mineDeviceAttribute ords₁).Perm (smart.mineDeviceAttribute ords₂) := by
  unfold SMARTctl.mineDeviceAttribute
  exact List.Perm.flatMap_left _ fun ia _ =>
    ((validOrds_getD h₁ ia.1).trans (validOrds_getD h₂ ia.1).symm).map _

theorem Collect_perm {smart : SMARTctl}
    {ords₁ ords₂ : List (List (String × String))}
    (h₁ : ValidOrds ords₁) (h₂ : ValidOrds ords₂) :
    (smart.Collect ords₁).Perm (smart.Collect ords₂) := by
  unfold SMARTctl.Collect
  exact ((((((((List.Perm.refl _).append
    (mineDeviceAttribute_perm h₁ h₂)).append
    (List.Perm.refl _)).append (List.Perm.refl _)).append
    (List.Perm.refl _)).append (List.Perm.refl _)).append
    (List.Perm.refl _)).append (List.Perm.refl _)).append
    (List.Perm.refl _)

/-! ## A sub-step contributes nothing to a foreign descriptor -/

theorem obsOf_mineExitStatus_ne {smart : SMARTctl} {d : Desc}
    (hd : d ≠ metricDeviceExitStatus) :
    obsOf d smart.mineExitStatus = [] :=
  obsOf_eq_nil fun _ hm =>
    descOf_ne_of_spec (mineExitStatus_spec hm) (by simp [hd])

theorem obsOf_mineDevice_ne {smart : SMARTctl} {d : Desc}
    (hd : d ≠ metricDeviceModel) :
    obsOf d smart.mineDevice = [] :=
  obsOf_eq_nil fun _ hm =>
    descOf_ne_of_spec (mineDevice_spec hm) (by simp [hd])

theorem obsOf_mineCapacity_ne {smart : SMARTctl} {d : Desc}
    (hd : d ∉ [metricDeviceCapacityBlocks, metricDeviceCapacityBytes,
      metricDeviceBlockSize]) :
    obsOf d smart.mineCapacity = [] :=
  obsOf_eq_nil fun _ hm => descOf_ne_of_spec (mineCapacity_spec hm) hd

theorem obsOf_mineInterfaceSpeed_ne {smart : SMARTctl} {d : Desc}
    (hd : d ≠ metricDeviceInterfaceSpeed) :
    obsOf d smart.mineInterfaceSpeed = [] :=
  obsOf_eq_nil fun _ hm =>
    descOf_ne_of_spec (mineInterfaceSpeed_spec hm) (by simp [hd])

theorem obsOf_minePowerOnSeconds_ne {smart : SMARTctl} {d : Desc}
    (hd : d ≠ metricDevicePowerOnSeconds) :
    obsOf d smart.minePowerOnSeconds = [] :=
  obsOf_eq_nil fun _ hm =>
    descOf_ne_of_spec (minePowerOnSeconds_spec hm) (by simp [hd])

theorem obsOf_minePowerCycleCount_ne {smart : SMARTctl} {d : Desc}
    (hd : d ≠ metricDevicePowerCycleCount) :
    obsOf d smart.minePowerCycleCount = [] :=
  obsOf_eq_nil fun _ hm =>
    descOf_ne_of_spec (minePowerCycleCount_spec hm) (by simp [hd])

theorem obsOf_mineNvmeSmartHealthInformationLog_ne {smart : SMARTctl}
    {d : Desc}
    (hd : d ∉ [metricCriticalWarning, metricAvailableSpare,
      metricMediaErrors, metricPercentageUsed]) :
    obsOf d smart.mineNvmeSmartHealthInformationLog = [] :=
  obsOf_eq_nil fun _ hm =>
    descOf_ne_of_spec (mineNvmeSmartHealthInformationLog_spec hm) hd

theorem obsOf_mineSmartStatus_ne {smart : SMARTctl} {d : Desc}
    (hd : d ≠ metricSmartStatus) :
    obsOf d smart.mineSmartStatus = [] :=
  obsOf_eq_nil fun _ hm =>
    descOf_ne_of_spec (mineSmartStatus_spec hm) (by simp [hd])

/-- The rotation-rate sub-step's own observations: one gauge holding the
looked-up rate when it is positive, nothing otherwise. -/
theorem obsOf_mineRotationRate (smart : SMARTctl) :
    obsOf metricDeviceRotationRate smart.mineRotationRate =
      if GetFloatIfExists (some smart.json) "rotation_rate" 0 > 0 then
        [⟨metricDeviceRotationRate, .gauge,
          GetFloatIfExists (some smart.json) "rotation_rate" 0,
          [smart.device.device, smart.device.family, smart.device.model,
           smart.device.serial]⟩]
      else [] := by
  simp only [SMARTctl.mineRotationRate]
  split
  · rfl
  · rfl

/-! ## Concrete reports used as test inputs -/

/-- A report with no fields at all (every path missing). -/
def emptyReport : Json := Json.obj []

/-- A report whose rotation rate is present but zero (an SSD). -/
def zeroRotationReport : Json := Json.obj [("rotation_rate", Json.num 0)]

/-- A report whose attribute table has a single (empty) entry. -/
def oneAttrReport : Json :=
  Json.obj [("ata_smart_attributes",
    Json.obj [("table", Json.arr [Json.obj []])])]

/-- A second admissible iteration order of the attribute map literal:
`worst` drawn before `value`. -/
def swappedOrd : List (String × String) :=
  [("worst", "worst"), ("value", "value"), ("thresh", "thresh"),
   ("raw", "raw.value")]

/-- A report carrying every documented field: one attribute-table entry,
one temperature key, one statistics page with one entry, the NVMe health
log, a spinning-disk rotation rate, and the concrete numbers the spec's
test vectors use (`hours=100, minutes=30`, `units_per_second=6,
bits_per_unit=1000000000`, `rotation_rate=7200`). -/
def fullReport : Json := Json.obj [
  ("smartctl", Json.obj [("exit_status", Json.num 0)]),
  ("device", Json.obj [("name", Json.str "/dev/sda"),
    ("type", Json.str "sat"), ("protocol", Json.str "ATA")]),
  ("model_family", Json.str "FamilyX"),
  ("model_name", Json.str "ModelY"),
  ("serial_number", Json.str "S123"),
  ("ata_additional_product_id", Json.str "prodid"),
  ("firmware_version", Json.str "1.0"),
  ("ata_version", Json.obj [("string", Json.str "ATA8-ACS")]),
  ("sata_version", Json.obj [("string", Json.str "SATA 3.2")]),
  ("user_capacity", Json.obj [("blocks", Json.num 100),
    ("bytes", Json.num 51200)]),
  ("logical_block_size", Json.num 512),
  ("physical_block_size", Json.num 4096),
  ("interface_speed", Json.obj [
    ("max", Json.obj [("units_per_second", Json.num 6),
      ("bits_per_unit", Json.num 1000000000)]),
    ("current", Json.obj [("units_per_second", Json.num 6),
      ("bits_per_unit", Json.num 1000000000)])]),
  ("ata_smart_attributes", Json.obj [("table", Json.arr [
    Json.obj [("id", Json.str "5"),
      ("name", Json.str "Reallocated_Sector_Ct"),
      ("value", Json.num 100), ("worst", Json.num 100),
      ("thresh", Json.num 10),
      ("flags", Json.obj [("string", Json.str "PO--CK"),
        ("prefailure", Json.bool true), ("updated_online", Json.bool true),
        ("performance", Json.bool false), ("error_rate", Json.bool false),
        ("event_count", Json.bool true), ("auto_keep", Json.bool true)]),
      ("raw", Json.obj [("value", Json.num 0),
        ("string", Json.str "0")])]])]),
  ("power_on_time", Json.obj [("hours", Json.num 100),
    ("minutes", Json.num 30)]),
  ("rotation_rate", Json.num 7200),
  ("temperature", Json.obj [("current", Json.num 35)]),
  ("power_cycle_count", Json.num 14),
  ("ata_device_statistics", Json.obj [("pages", Json.arr [
    Json.obj [("name", Json.str "General Statistics"),
      ("table", Json.arr [
        Json.obj [("name", Json.str "Lifetime Power-On Resets"),
          ("value", Json.num 14),
          ("flags", Json.obj [("string", Json.str "V---"),
            ("valid", Json.bool true), ("normalized", Json.bool false),
            ("supports_dsn", Json.bool false),
            ("monitored_condition_met", Json.bool false)])]])]])]),
  ("nvme_smart_health_information_log", Json.obj [
    ("critical_warning", Json.num 0), ("available_spare", Json.num 100),
    ("media_errors", Json.num 0), ("percentage_used", Json.num 1)]),
  ("smart_status", Json.obj [("passed", Json.bool true)])]

/-- Claim C1: the spec says a report missing the NVMe health sub-tree
yields zero observations for the four NVMe metrics.  The code's guard
`if (iHealth == nil)` can never fire (a `gjson.Result` value is never
`nil`), so the four NVMe gauges are emitted — with value 0 — even for a
report with no NVMe sub-tree at all: the code contradicts the
presence-gating the spec (and the upstream project) intends. -/
theorem nvmeHealthLog_emitted_despite_absent_subtree :
    Json.Get emptyReport "nvme_smart_health_information_log" = none ∧
    countD metricCriticalWarning ((NewSMARTctl emptyReport).Collect []) = 1 ∧
    countD metricAvailableSpare ((NewSMARTctl emptyReport).Collect []) = 1 ∧
    countD metricMediaErrors ((NewSMARTctl emptyReport).Collect []) = 1 ∧
    countD metricPercentageUsed ((NewSMARTctl emptyReport).Collect []) = 1 ∧
    obsOf metricCriticalWarning ((NewSMARTctl emptyReport).Collect []) =
      [⟨metricCriticalWarning, .gauge, 0, ["", "", "", ""]⟩] :=
  ⟨rfl, by decide, by decide, by decide, by decide, by decide⟩

/-- Claim C2: every observation of every pass is constructed with exactly
as many label values as its descriptor declares label names, so the
`MustNewConstMetric` panic branch is unreachable. -/
theorem collect_label_values_match_catalog :
    ∀ (r : Json) (ords : List (List (String × String))) (m : Metric),
      m ∈ (NewSMARTctl r).Collect ords →
      ∃ obs, m = .ok obs ∧
        obs.labelValues.length = obs.desc.variableLabels.length := by
  intro r ords m hm
  obtain ⟨obs, h1, -, h3, -⟩ := Collect_spec hm
  exact ⟨obs, h1, h3⟩

/-- Witness for C2 at a concrete report and metric. -/
theorem collect_label_values_match_catalog_witness :
    ∃ obs,
      (Except.ok ⟨metricDeviceExitStatus, ValueType.gauge, 0,
        ["/dev/sda", "FamilyX", "ModelY", "S123"]⟩ : Metric) = .ok obs ∧
      obs.labelValues.length = obs.desc.variableLabels.length :=
  collect_label_values_match_catalog fullReport [attrValuePaths] _ (by decide)

/-- Claim C10: no pass ever emits an observation against
`metricSmartctlVersion`. -/
theorem smartctlVersion_never_emitted :
    ∀ (r : Json) (ords : List (List (String × String))),
      obsOf metricSmartctlVersion ((NewSMARTctl r).Collect ords) = [] := by
  intro r ords
  rw [obsOf_collect, obsOf_mineExitStatus_ne (by decide),
    obsOf_mineDevice_ne (by decide), obsOf_mineCapacity_ne (by decide),
    obsOf_mineInterfaceSpeed_ne (by decide),
    obsOf_mineDeviceAttribute_ne (by decide),
    obsOf_minePowerOnSeconds_ne (by decide),
    obsOf_mineRotationRate_ne (by decide),
    obsOf_mineTemperatures_ne (by decide),
    obsOf_minePowerCycleCount_ne (by decide),
    obsOf_mineDeviceStatistics_ne (by decide),
    obsOf_mineNvmeSmartHealthInformationLog_ne (by decide),
    obsOf_mineSmartStatus_ne (by decide)]
  rfl

/-- The accumulating loop of `mineLongFlags` collects exactly the
candidates passing the test, in candidate order. -/
theorem foldl_collect_eq_filter {α : Type} (p : α → Bool) (l acc : List α) :
    (l.foldl (fun result a => if p a then result ++ [a] else result) acc) =
      acc ++ l.filter p := by
  induction l generalizing acc with
  | nil => simp
  | cons a t ih =>
    rw [List.foldl_cons, List.filter_cons]
    by_cases hp : p a
    · rw [if_pos hp, if_pos hp, ih]
      simp
    · rw [if_neg hp, if_neg hp, ih]

/-- Claim C5: the long-flag derivation returns the comma-join of exactly
the candidates that exist and are truthy, in candidate order; an absent
sub-tree yields the empty string; the spec's concrete vector derives
`"prefailure,auto_keep"`. -/
theorem mineLongFlags_joins_true_candidates_in_order :
    (∀ (json : Result) (flags : List String),
      mineLongFlags json flags =
        joinComma (flags.filter fun flag =>
          Result.Exists (Result.Get json flag) &&
            Result.boolVal (Result.Get json flag))) ∧
    (∀ flags : List String, mineLongFlags none flags = "") ∧
    mineLongFlags
      (some (Json.obj [("prefailure", Json.bool true),
        ("performance", Json.bool false), ("auto_keep", Json.bool true)]))
      ["prefailure", "updated_online", "performance", "error_rate",
       "event_count", "auto_keep"] = "prefailure,auto_keep" := by
  have hgen : ∀ (json : Result) (flags : List String),
      mineLongFlags json flags =
        joinComma (flags.filter fun flag =>
          Result.Exists (Result.Get json flag) &&
            Result.boolVal (Result.Get json flag)) := by
    intro json flags
    rw [mineLongFlags, foldl_collect_eq_filter, List.nil_append]
  refine ⟨hgen, fun flags => ?_, by decide⟩
  rw [hgen]
  have : flags.filter (fun flag =>
      Result.Exists (Result.Get none flag) &&
        Result.boolVal (Result.Get none flag)) = [] :=
    List.filter_eq_nil_iff.mpr fun a _ => by
      simp [Result.Get, Result.Exists]
  rw [this]
  rfl

/-- Claim C6: every pass emits exactly one power-on-seconds observation,
a counter valued `hours*3600 + minutes*60` with both parts defaulting to
0 when absent; at `hours=100, minutes=30` the value is 361800. -/
theorem powerOnSeconds_single_counter_observation :
    (∀ (r : Json) (ords : List (List (String × String))),
      obsOf metricDevicePowerOnSeconds ((NewSMARTctl r).Collect ords) =
        [⟨metricDevicePowerOnSeconds, .counter,
          GetFloatIfExists (Json.Get r "power_on_time") "hours" 0 * 3600 +
            GetFloatIfExists (Json.Get r "power_on_time") "minutes" 0 * 60,
          [(NewSMARTctl r).device.device, (NewSMARTctl r).device.family,
           (NewSMARTctl r).device.model, (NewSMARTctl r).device.serial]⟩]) ∧
    obsOf metricDevicePowerOnSeconds
        ((NewSMARTctl fullReport).Collect [attrValuePaths]) =
      [⟨metricDevicePowerOnSeconds, .counter, 361800,
        ["/dev/sda", "FamilyX", "ModelY", "S123"]⟩] := by
  have hgen : ∀ (r : Json) (ords : List (List (String × String))),
      obsOf metricDevicePowerOnSeconds ((NewSMARTctl r).Collect ords) =
        [⟨metricDevicePowerOnSeconds, .counter,
          GetFloatIfExists (Json.Get r "power_on_time") "hours" 0 * 3600 +
            GetFloatIfExists (Json.Get r "power_on_time") "minutes" 0 * 60,
          [(NewSMARTctl r).device.device, (NewSMARTctl r).device.family,
           (NewSMARTctl r).device.model, (NewSMARTctl r).device.serial]⟩] := by
    intro r ords
    rw [obsOf_collect, obsOf_mineExitStatus_ne (by decide),
      obsOf_mineDevice_ne (by decide), obsOf_mineCapacity_ne (by decide),
      obsOf_mineInterfaceSpeed_ne (by decide),
      obsOf_mineDeviceAttribute_ne (by decide),
      obsOf_mineRotationRate_ne (by decide),
      obsOf_mineTemperatures_ne (by decide),
      obsOf_minePowerCycleCount_ne (by decide),
      obsOf_mineDeviceStatistics_ne (by decide),
      obsOf_mineNvmeSmartHealthInformationLog_ne (by decide),
      obsOf_mineSmartStatus_ne (by decide)]
    simp only [List.nil_append, List.append_nil]
    show [(⟨metricDevicePowerOnSeconds, .counter,
        GetFloatIfExists (Json.Get r "power_on_time") "hours" 0 * 60 * 60 +
          GetFloatIfExists (Json.Get r "power_on_time") "minutes" 0 * 60,
        [(NewSMARTctl r).device.device, (NewSMARTctl r).device.family,
         (NewSMARTctl r).device.model,
         (NewSMARTctl r).device.serial]⟩ : Observation)] = _
    norm_num [mul_assoc]
  refine ⟨hgen, ?_⟩
  rw [hgen fullReport [attrValuePaths],
    show GetFloatIfExists (Json.Get fullReport "power_on_time") "hours" 0 =
      100 from rfl,
    show GetFloatIfExists (Json.Get fullReport "power_on_time") "minutes" 0 =
      30 from rfl,
    show (NewSMARTctl fullReport).device.device = "/dev/sda" from rfl,
    show (NewSMARTctl fullReport).device.family = "FamilyX" from rfl,
    show (NewSMARTctl fullReport).device.model = "ModelY" from rfl,
    show (NewSMARTctl fullReport).device.serial = "S123" from rfl]
  norm_num

/-- Claim C7: every pass emits exactly two interface-speed gauges, one
per speed kind in the order `max`, `current`, each valued
`units_per_second * bits_per_unit` (missing sub-fields coerce to 0 and
the observation is still emitted, never skipped); the spec's SATA vector
yields 6000000000. -/
theorem interfaceSpeed_two_gauge_observations :
    (∀ (r : Json) (ords : List (List (String × String))),
      obsOf metricDeviceInterfaceSpeed ((NewSMARTctl r).Collect ords) =
        [⟨metricDeviceInterfaceSpeed, .gauge,
          Result.floatVal (Result.Get (Result.Get
            (Json.Get r "interface_speed") "max") "units_per_second") *
            Result.floatVal (Result.Get (Result.Get
              (Json.Get r "interface_speed") "max") "bits_per_unit"),
          [(NewSMARTctl r).device.device, (NewSMARTctl r).device.family,
           (NewSMARTctl r).device.model, (NewSMARTctl r).device.serial,
           "max"]⟩,
         ⟨metricDeviceInterfaceSpeed, .gauge,
          Result.floatVal (Result.Get (Result.Get
            (Json.Get r "interface_speed") "current") "units_per_second") *
            Result.floatVal (Result.Get (Result.Get
              (Json.Get r "interface_speed") "current") "bits_per_unit"),
          [(NewSMARTctl r).device.device, (NewSMARTctl r).device.family,
           (NewSMARTctl r).device.model, (NewSMARTctl r).device.serial,
           "current"]⟩]) ∧
    obsOf metricDeviceInterfaceSpeed
        ((NewSMARTctl emptyReport).Collect []) =
      [⟨metricDeviceInterfaceSpeed, .gauge, 0, ["", "", "", "", "max"]⟩,
       ⟨metricDeviceInterfaceSpeed, .gauge, 0,
        ["", "", "", "", "current"]⟩] ∧
    obsOf metricDeviceInterfaceSpeed
        ((NewSMARTctl fullReport).Collect [attrValuePaths]) =
      [⟨metricDeviceInterfaceSpeed, .gauge, 6000000000,
        ["/dev/sda", "FamilyX", "ModelY", "S123", "max"]⟩,
       ⟨metricDeviceInterfaceSpeed, .gauge, 6000000000,
        ["/dev/sda", "FamilyX", "ModelY", "S123", "current"]⟩] := by
  have hgen : ∀ (r : Json) (ords : List (List (String × String))),
      obsOf metricDeviceInterfaceSpeed ((NewSMARTctl r).Collect ords) =
        [⟨metricDeviceInterfaceSpeed, .gauge,
          Result.floatVal (Result.Get (Result.Get
            (Json.Get r "interface_speed") "max") "units_per_second") *
            Result.floatVal (Result.Get (Result.Get
              (Json.Get r "interface_speed") "max") "bits_per_unit"),
          [(NewSMARTctl r).device.device, (NewSMARTctl r).device.family,
           (NewSMARTctl r).device.model, (NewSMARTctl r).device.serial,
           "max"]⟩,
         ⟨metricDeviceInterfaceSpeed, .gauge,
          Result.floatVal (Result.Get (Result.Get
            (Json.Get r "interface_speed") "current") "units_per_second") *
            Result.floatVal (Result.Get (Result.Get
              (Json.Get r "interface_speed") "current") "bits_per_unit"),
          [(NewSMARTctl r).device.device, (NewSMARTctl r).device.family,
           (NewSMARTctl r).device.model, (NewSMARTctl r).device.serial,
           "current"]⟩] := by
    intro r ords
    rw [obsOf_collect, obsOf_mineExitStatus_ne (by decide),
      obsOf_mineDevice_ne (by decide), obsOf_mineCapacity_ne (by decide),
      obsOf_mineDeviceAttribute_ne (by decide),
      obsOf_minePowerOnSeconds_ne (by decide),
      obsOf_mineRotationRate_ne (by decide),
      obsOf_mineTemperatures_ne (by decide),
      obsOf_minePowerCycleCount_ne (by decide),
      obsOf_mineDeviceStatistics_ne (by decide),
      obsOf_mineNvmeSmartHealthInformationLog_ne (by decide),
      obsOf_mineSmartStatus_ne (by decide)]
    rfl
  refine ⟨hgen, ?_, ?_⟩
  · rw [hgen emptyReport [],
      show Result.floatVal (Result.Get (Result.Get
        (Json.Get emptyReport "interface_speed") "max") "units_per_second") =
        0 from rfl,
      show Result.floatVal (Result.Get (Result.Get
        (Json.Get emptyReport "interface_speed") "max") "bits_per_unit") =
        0 from rfl,
      show Result.floatVal (Result.Get (Result.Get
        (Json.Get emptyReport "interface_speed") "current")
          "units_per_second") = 0 from rfl,
      show Result.floatVal (Result.Get (Result.Get
        (Json.Get emptyReport "interface_speed") "current") "bits_per_unit") =
        0 from rfl,
      show (NewSMARTctl emptyReport).device.device = "" from rfl,
      show (NewSMARTctl emptyReport).device.family = "" from rfl,
      show (NewSMARTctl emptyReport).device.model = "" from rfl,
      show (NewSMARTctl emptyReport).device.serial = "" from rfl]
    norm_num
  · rw [hgen fullReport [attrValuePaths],
      show Result.floatVal (Result.Get (Result.Get
        (Json.Get fullReport "interface_speed") "max") "units_per_second") =
        6 from rfl,
      show Result.floatVal (Result.Get (Result.Get
        (Json.Get fullReport "interface_speed") "max") "bits_per_unit") =
        1000000000 from rfl,
      show Result.floatVal (Result.Get (Result.Get
        (Json.Get fullReport "interface_speed") "current")
          "units_per_second") = 6 from rfl,
      show Result.floatVal (Result.Get (Result.Get
        (Json.Get fullReport "interface_speed") "current") "bits_per_unit") =
        1000000000 from rfl,
      show (NewSMARTctl fullReport).device.device = "/dev/sda" from rfl,
      show (NewSMARTctl fullReport).device.family = "FamilyX" from rfl,
      show (NewSMARTctl fullReport).device.model = "ModelY" from rfl,
      show (NewSMARTctl fullReport).device.serial = "S123" from rfl]
    norm_num

/-- Claim C8: a rotation-rate gauge is emitted exactly when the looked-up
rate is positive, carrying that rate; absent or zero rates emit nothing,
7200 emits one observation of value 7200. -/
theorem rotationRate_observation_iff_positive :
    (∀ (r : Json) (ords : List (List (String × String))),
      obsOf metricDeviceRotationRate ((NewSMARTctl r).Collect ords) =
        if GetFloatIfExists (some r) "rotation_rate" 0 > 0 then
          [⟨metricDeviceRotationRate, .gauge,
            GetFloatIfExists (some r) "rotation_rate" 0,
            [(NewSMARTctl r).device.device, (NewSMARTctl r).device.family,
             (NewSMARTctl r).device.model,
             (NewSMARTctl r).device.serial]⟩]
        else []) ∧
    obsOf metricDeviceRotationRate ((NewSMARTctl emptyReport).Collect []) =
      [] ∧
    obsOf metricDeviceRotationRate
        ((NewSMARTctl zeroRotationReport).Collect []) = [] ∧
    obsOf metricDeviceRotationRate
        ((NewSMARTctl fullReport).Collect [attrValuePaths]) =
      [⟨metricDeviceRotationRate, .gauge, 7200,
        ["/dev/sda", "FamilyX", "ModelY", "S123"]⟩] := by
  have hgen : ∀ (r : Json) (ords : List (List (String × String))),
      obsOf metricDeviceRotationRate ((NewSMARTctl r).Collect ords) =
        if GetFloatIfExists (some r) "rotation_rate" 0 > 0 then
          [⟨metricDeviceRotationRate, .gauge,
            GetFloatIfExists (some r) "rotation_rate" 0,
            [(NewSMARTctl r).device.device, (NewSMARTctl r).device.family,
             (NewSMARTctl r).device.model,
             (NewSMARTctl r).device.serial]⟩]
        else [] := by
    intro r ords
    rw [obsOf_collect, obsOf_mineExitStatus_ne (by decide),
      obsOf_mineDevice_ne (by decide), obsOf_mineCapacity_ne (by decide),
      obsOf_mineInterfaceSpeed_ne (by decide),
      obsOf_mineDeviceAttribute_ne (by decide),
      obsOf_minePowerOnSeconds_ne (by decide),
      obsOf_mineTemperatures_ne (by decide),
      obsOf_minePowerCycleCount_ne (by decide),
      obsOf_mineDeviceStatistics_ne (by decide),
      obsOf_mineNvmeSmartHealthInformationLog_ne (by decide),
      obsOf_mineSmartStatus_ne (by decide)]
    simp only [List.nil_append, List.append_nil]
    rw [obsOf_mineRotationRate]
    rfl
  refine ⟨hgen, ?_, ?_, ?_⟩
  · rw [hgen emptyReport [],
      show GetFloatIfExists (some emptyReport) "rotation_rate" 0 = 0
        from rfl, if_neg (by norm_num)]
  · rw [hgen zeroRotationReport [],
      show GetFloatIfExists (some zeroRotationReport) "rotation_rate" 0 = 0
        from rfl, if_neg (by norm_num)]
  · rw [hgen fullReport [attrValuePaths],
      show GetFloatIfExists (some fullReport) "rotation_rate" 0 = 7200
        from rfl, if_pos (by norm_num : (7200 : Rat) > 0),
      show (NewSMARTctl fullReport).device.device = "/dev/sda" from rfl,
      show (NewSMARTctl fullReport).device.family = "FamilyX" from rfl,
      show (NewSMARTctl fullReport).device.model = "ModelY" from rfl,
      show (NewSMARTctl fullReport).device.serial = "S123" from rfl]

/-- Claim C9: every observation of a pass carries, at the positions where
its descriptor declares the identity label names, the same four strings,
which the constructor derives once as the whitespace-trimmed values of
`device.name`, `model_family`, `model_name` and `serial_number`. -/
theorem identity_labels_uniform_across_pass :
    ∀ (r : Json) (ords : List (List (String × String))) (m : Metric),
      m ∈ (NewSMARTctl r).Collect ords →
      ∀ obs : Observation, m = .ok obs →
        identityValues obs =
          [trimSpace (Result.strVal (Json.Get r "device.name")),
           trimSpace (Result.strVal (Json.Get r "model_family")),
           trimSpace (Result.strVal (Json.Get r "model_name")),
           trimSpace (Result.strVal (Json.Get r "serial_number"))] := by
  intro r ords m hm obs hobs
  obtain ⟨obs', h1, -, -, h4⟩ := Collect_spec hm
  rw [hobs] at h1
  injection h1 with h1
  rw [← h1] at h4
  exact h4

/-- Witness for C9 at a concrete report and observation. -/
theorem identity_labels_uniform_across_pass_witness :
    identityValues ⟨metricDeviceExitStatus, ValueType.gauge, 0,
        ["/dev/sda", "FamilyX", "ModelY", "S123"]⟩ =
      [trimSpace (Result.strVal (Json.Get fullReport "device.name")),
       trimSpace (Result.strVal (Json.Get fullReport "model_family")),
       trimSpace (Result.strVal (Json.Get fullReport "model_name")),
       trimSpace (Result.strVal (Json.Get fullReport "serial_number"))] :=
  identity_labels_uniform_across_pass fullReport [attrValuePaths]
    (Except.ok ⟨metricDeviceExitStatus, ValueType.gauge, 0,
      ["/dev/sda", "FamilyX", "ModelY", "S123"]⟩)
    (by decide) _ rfl

/-- Claim C3 fails on the code: the four per-attribute value-type
observations are emitted in Go map-iteration order, which the runtime
randomizes per run; two valid runs on the same one-attribute report can
emit different sequences. -/
theorem collect_differs_across_map_iteration_orders :
    ValidOrds [attrValuePaths] ∧ ValidOrds [swappedOrd] ∧
    (NewSMARTctl oneAttrReport).Collect [attrValuePaths] ≠
      (NewSMARTctl oneAttrReport).Collect [swappedOrd] := by
  refine ⟨?_, ?_, fun heq =>
    absurd (congrArg (obsOf metricDeviceAttribute) heq) (by decide)⟩
  · intro o ho
    rw [List.mem_singleton] at ho
    subst ho
    exact List.Perm.refl _
  · intro o ho
    rw [List.mem_singleton] at ho
    subst ho
    exact List.Perm.swap _ _ _

/-- Claim C3, amended: per input report, two valid runs emit the same
multiset of observations, and restricted to any descriptor other than the
attribute metric they emit the same sequence in the same order; only the
relative order of the four value-type observations inside each
attribute-table entry can differ between runs. -/
theorem collect_deterministic_up_to_attribute_value_order :
    ∀ (r : Json) (ords₁ ords₂ : List (List (String × String))),
      ValidOrds ords₁ → ValidOrds ords₂ →
      ((NewSMARTctl r).Collect ords₁).Perm
        ((NewSMARTctl r).Collect ords₂) ∧
      ∀ d : Desc, d ≠ metricDeviceAttribute →
        obsOf d ((NewSMARTctl r).Collect ords₁) =
          obsOf d ((NewSMARTctl r).Collect ords₂) := by
  intro r ords₁ ords₂ h₁ h₂
  refine ⟨Collect_perm h₁ h₂, fun d hd => ?_⟩
  rw [obsOf_collect, obsOf_collect, obsOf_mineDeviceAttribute_ne hd,
    obsOf_mineDeviceAttribute_ne hd]

/-- Witness for the amended C3 at a concrete report and pair of runs. -/
theorem collect_deterministic_up_to_attribute_value_order_witness :
    ((NewSMARTctl oneAttrReport).Collect [attrValuePaths]).Perm
      ((NewSMARTctl oneAttrReport).Collect [swappedOrd]) :=
  (collect_deterministic_up_to_attribute_value_order oneAttrReport
    [attrValuePaths] [swappedOrd]
    (fun o ho => by
      rw [List.mem_singleton] at ho
      subst ho
      exact List.Perm.refl _)
    (fun o ho => by
      rw [List.mem_singleton] at ho
      subst ho
      exact List.Perm.swap _ _ _)).1

/-- Claim C4 fails on the code at a report carrying every documented
field: the capacity sub-step emits 4 observations (blocks, bytes and one
block-size gauge per kind), not 3, and the attribute sub-step emits 4
observations per table entry (one per value type), not 1. -/
theorem full_report_capacity_and_attribute_counts :
    countD metricDeviceCapacityBlocks
        ((NewSMARTctl fullReport).Collect [attrValuePaths]) +
      countD metricDeviceCapacityBytes
        ((NewSMARTctl fullReport).Collect [attrValuePaths]) +
      countD metricDeviceBlockSize
        ((NewSMARTctl fullReport).Collect [attrValuePaths]) = 4 ∧
    attrEntryCount fullReport = 1 ∧
    countD metricDeviceAttribute
      ((NewSMARTctl fullReport).Collect [attrValuePaths]) = 4 :=
  ⟨by decide, by decide, by decide⟩

/-- Claim C4, amended: per valid run, the counts per §4.3 sub-step are:
one observation each for steps 1, 2, 6, 9 and 12, two for step 4 and four
for step 3 (blocks, bytes, and one block-size gauge per kind), four per
attribute-table entry for step 5, one per temperature key for step 8, one
per statistics-table entry for step 10, and four for step 11 (the NVMe
guard never skips, see C1). -/
theorem collect_observation_counts :
    ∀ (r : Json) (ords : List (List (String × String))), ValidOrds ords →
      countD metricDeviceExitStatus ((NewSMARTctl r).Collect ords) = 1 ∧
      countD metricDeviceModel ((NewSMARTctl r).Collect ords) = 1 ∧
      countD metricDeviceCapacityBlocks ((NewSMARTctl r).Collect ords) = 1 ∧
      countD metricDeviceCapacityBytes ((NewSMARTctl r).Collect ords) = 1 ∧
      countD metricDeviceBlockSize ((NewSMARTctl r).Collect ords) = 2 ∧
      countD metricDeviceInterfaceSpeed ((NewSMARTctl r).Collect ords) = 2 ∧
      countD metricDeviceAttribute ((NewSMARTctl r).Collect ords) =
        4 * attrEntryCount r ∧
      countD metricDevicePowerOnSeconds ((NewSMARTctl r).Collect ords) = 1 ∧
      countD metricDeviceTemperature ((NewSMARTctl r).Collect ords) =
        tempEntryCount r ∧
      countD metricDevicePowerCycleCount ((NewSMARTctl r).Collect ords) = 1 ∧
      countD metricDeviceStatistics ((NewSMARTctl r).Collect ords) =
        statsEntryCount r ∧
      countD metricCriticalWarning ((NewSMARTctl r).Collect ords) = 1 ∧
      countD metricAvailableSpare ((NewSMARTctl r).Collect ords) = 1 ∧
      countD metricMediaErrors ((NewSMARTctl r).Collect ords) = 1 ∧
      countD metricPercentageUsed ((NewSMARTctl r).Collect ords) = 1 ∧
      countD metricSmartStatus ((NewSMARTctl r).Collect ords) = 1 := by
  intro r ords h
  refine ⟨?_, ?_, ?_, ?_, ?_, ?_, ?_, ?_, ?_, ?_, ?_, ?_, ?_, ?_, ?_, ?_⟩
  · rw [countD_collect, countD_mineDeviceAttribute_ne (by decide),
      countD_mineRotationRate_ne (by decide),
      countD_mineTemperatures_ne (by decide),
      countD_mineDeviceStatistics_ne (by decide)]
    rfl
  · rw [countD_collect, countD_mineDeviceAttribute_ne (by decide),
      countD_mineRotationRate_ne (by decide),
      countD_mineTemperatures_ne (by decide),
      countD_mineDeviceStatistics_ne (by decide)]
    rfl
  · rw [countD_collect, countD_mineDeviceAttribute_ne (by decide),
      countD_mineRotationRate_ne (by decide),
      countD_mineTemperatures_ne (by decide),
      countD_mineDeviceStatistics_ne (by decide)]
    rfl
  · rw [countD_collect, countD_mineDeviceAttribute_ne (by decide),
      countD_mineRotationRate_ne (by decide),
      countD_mineTemperatures_ne (by decide),
      countD_mineDeviceStatistics_ne (by decide)]
    rfl
  · rw [countD_collect, countD_mineDeviceAttribute_ne (by decide),
      countD_mineRotationRate_ne (by decide),
      countD_mineTemperatures_ne (by decide),
      countD_mineDeviceStatistics_ne (by decide)]
    rfl
  · rw [countD_collect, countD_mineDeviceAttribute_ne (by decide),
      countD_mineRotationRate_ne (by decide),
      countD_mineTemperatures_ne (by decide),
      countD_mineDeviceStatistics_ne (by decide)]
    rfl
  · rw [countD_collect, countD_mineRotationRate_ne (by decide),
      countD_mineTemperatures_ne (by decide),
      countD_mineDeviceStatistics_ne (by decide),
      countD_mineDeviceAttribute h]
    show 0 + 0 + 0 + 0 + 4 * attrEntryCount r + 0 + 0 + 0 + 0 + 0 + 0 + 0 =
      4 * attrEntryCount r
    omega
  · rw [countD_collect, countD_mineDeviceAttribute_ne (by decide),
      countD_mineRotationRate_ne (by decide),
      countD_mineTemperatures_ne (by decide),
      countD_mineDeviceStatistics_ne (by decide)]
    rfl
  · rw [countD_collect, countD_mineDeviceAttribute_ne (by decide),
      countD_mineRotationRate_ne (by decide),
      countD_mineDeviceStatistics_ne (by decide),
      countD_mineTemperatures]
    show 0 + 0 + 0 + 0 + 0 + 0 + 0 + tempEntryCount r + 0 + 0 + 0 + 0 =
      tempEntryCount r
    omega
  · rw [countD_collect, countD_mineDeviceAttribute_ne (by decide),
      countD_mineRotationRate_ne (by decide),
      countD_mineTemperatures_ne (by decide),
      countD_mineDeviceStatistics_ne (by decide)]
    rfl
  · rw [countD_collect, countD_mineDeviceAttribute_ne (by decide),
      countD_mineRotationRate_ne (by decide),
      countD_mineTemperatures_ne (by decide),
      countD_mineDeviceStatistics]
    show 0 + 0 + 0 + 0 + 0 + 0 + 0 + 0 + 0 + statsEntryCount r + 0 + 0 =
      statsEntryCount r
    omega
  · rw [countD_collect, countD_mineDeviceAttribute_ne (by decide),
      countD_mineRotationRate_ne (by decide),
      countD_mineTemperatures_ne (by decide),
      countD_mineDeviceStatistics_ne (by decide)]
    rfl
  · rw [countD_collect, countD_mineDeviceAttribute_ne (by decide),
      countD_mineRotationRate_ne (by decide),
      countD_mineTemperatures_ne (by decide),
      countD_mineDeviceStatistics_ne (by decide)]
    rfl
  · rw [countD_collect, countD_mineDeviceAttribute_ne (by decide),
      countD_mineRotationRate_ne (by decide),
      countD_mineTemperatures_ne (by decide),
      countD_mineDeviceStatistics_ne (by decide)]
    rfl
  · rw [countD_collect, countD_mineDeviceAttribute_ne (by decide),
      countD_mineRotationRate_ne (by decide),
      countD_mineTemperatures_ne (by decide),
      countD_mineDeviceStatistics_ne (by decide)]
    rfl
  · rw [countD_collect, countD_mineDeviceAttribute_ne (by decide),
      countD_mineRotationRate_ne (by decide),
      countD_mineTemperatures_ne (by decide),
      countD_mineDeviceStatistics_ne (by decide)]
    rfl

/-- Witness for the amended C4 at a concrete valid run. -/
theorem collect_observation_counts_witness :
    ValidOrds [attrValuePaths] ∧
    countD metricDeviceAttribute
        ((NewSMARTctl fullReport).Collect [attrValuePaths]) =
      4 * attrEntryCount fullReport := by
  have hv : ValidOrds [attrValuePaths] := fun o ho => by
    rw [List.mem_singleton] at ho
    subst ho
    exact List.Perm.refl _
  exact ⟨hv, (collect_observation_counts fullReport [attrValuePaths]
    hv).2.2.2.2.2.2.1⟩
